import Mathlib

/-
Shallow embedding of `src/frontend/lib/src/components/shared/Toolbar/Toolbar.tsx`.

The file defines two React components:
  * `ToolbarAction`: a tooltip-wrapped icon button with a label, an optional
    visible text, and a click handler that stops event propagation;
  * `Toolbar`: a container that resolves fullscreen state and callbacks from
    explicit props with fallback to an ambient fullscreen context, and renders
    at most one built-in fullscreen action.

Callbacks are modelled by an abstract type `κ` of callback identifiers (the
embedding tracks which function a handler invokes, not the function's effect);
children of the toolbar are modelled by an abstract type `χ`.  JSX render
output is modelled as explicit record values describing the element trees the
components return.
-/

namespace ToolbarSpec

variable {κ χ : Type}

/-- Icon references from the `@emotion-icons` packages: the two
material-outlined icons the source imports, plus arbitrary caller icons. -/
inductive EmotionIcon where
  | Fullscreen
  | FullscreenExit
  | other (id : Nat)
  deriving DecidableEq, Repr

/-- Opaque reference to a styled component (the `target` prop of `Toolbar`). -/
structure StyledComponentRef where
  ref : Nat
  deriving DecidableEq, Repr

/-- Tooltip placements; the source uses `Placement.TOP`. -/
inductive Placement where
  | TOP
  | BOTTOM
  | LEFT
  | RIGHT
  deriving DecidableEq, Repr

/-- Button kinds; the source uses `BaseButtonKind.ELEMENT_TOOLBAR`. -/
inductive BaseButtonKind where
  | ELEMENT_TOOLBAR
  | other (id : Nat)
  deriving DecidableEq, Repr

/-- Props of the `StreamlitMarkdown` renderer as instantiated for the tooltip
content: `source={label} allowHTML={false}`. -/
structure MarkdownProps where
  source : String
  allowHTML : Bool
  deriving DecidableEq, Repr

/-- Render data of the `Tooltip` wrapper created by `ToolbarAction`. -/
structure TooltipRender where
  content : MarkdownProps
  placement : Placement
  onMouseEnterDelay : Nat
  inlineFlag : Bool
  deriving DecidableEq, Repr

/-- Render data of the `Icon` child of the button:
`content={icon} size="md" testid="stElementToolbarButtonIcon"`. -/
structure IconRender where
  content : EmotionIcon
  size : String
  testid : String
  deriving DecidableEq, Repr

/-- Render data of the `Button` created by `ToolbarAction`: the attached click
callback, the button kind, the accessible name (`aria-label`), the optionally
rendered icon child, and the optionally rendered `<span>` text child. -/
structure ButtonRender (κ : Type) where
  onClick : Option κ
  kind : BaseButtonKind
  ariaLabel : String
  iconContent : Option IconRender
  visibleText : Option String
  deriving DecidableEq, Repr

/-- The element tree returned by one `ToolbarAction`: the wrapping `div` test
id, the tooltip, and the button inside it. -/
structure ActionRender (κ : Type) where
  testid : String
  tooltip : TooltipRender
  button : ButtonRender κ
  deriving DecidableEq, Repr

/-- Props of `ToolbarAction` (`ToolbarActionProps` in the source).  `icon` and
`show_label` are optional; `onClick` is kept as an `Option` because the click
handler guards it with `if (onClick)`. -/
structure ToolbarActionProps (κ : Type) where
  label : String
  icon : Option EmotionIcon := none
  show_label : Option Bool := none
  onClick : Option κ
  deriving DecidableEq, Repr

/-- Observable effects of the click handler, in execution order. -/
inductive Effect (κ : Type) where
  | invoke (f : κ)
  | stopPropagation
  deriving DecidableEq, Repr

/-- The click handler `ToolbarAction` attaches to its button:
`event => { if (onClick) { onClick() } event.stopPropagation() }`.
Returns the trace of effects one activation produces. -/
def handleButtonClick (onClick : Option κ) : List (Effect κ) :=
  (match onClick with
    | some f => [Effect.invoke f]
    | none => []) ++ [Effect.stopPropagation]

/-- Shallow embedding of the `ToolbarAction` component (source lines 46-94):
computes the element tree it returns.  `displayLabel = show_label ? label : ""`
uses JavaScript truthiness, and the span is rendered only when the resulting
string is truthy (nonempty): `{displayLabel && <span>{displayLabel}</span>}`. -/
def ToolbarAction (props : ToolbarActionProps κ) : ActionRender κ :=
  let displayLabel : String := if props.show_label = some true then props.label else ""
  { testid := "stElementToolbarButton"
    tooltip :=
      { content := { source := props.label, allowHTML := false }
        placement := Placement.TOP
        onMouseEnterDelay := 1000
        inlineFlag := true }
    button :=
      { onClick := props.onClick
        kind := BaseButtonKind.ELEMENT_TOOLBAR
        ariaLabel := props.label
        iconContent := props.icon.map fun i =>
          { content := i, size := "md", testid := "stElementToolbarButtonIcon" }
        visibleText := if displayLabel = "" then none else some displayLabel } }

/-- Modelled from the spec: the default tooltip trigger delay of the `Tooltip`
component (outside the provided source; the source comment and the spec both
state it is 200ms). -/
def defaultTooltipDelay : Nat := 200

/-- Modelled from the spec: the value shape of the ambient
`ElementFullscreenContext` provider (outside the provided source), exposing
`{ expanded: boolean, expand: () => void, collapse: () => void }`; `expand`
and `collapse` are required members, so a mounted provider always supplies
them. -/
structure FullscreenContextValue (κ : Type) where
  expanded : Bool
  expand : κ
  collapse : κ
  deriving DecidableEq, Repr

/-- The fatal configuration error raised when a required context is absent. -/
inductive ConfigError where
  | missingContext
  deriving DecidableEq, Repr

/-- Modelled from the spec: `useRequiredContext` (outside the provided source)
returns the ambient context value, and raises a fatal configuration error
immediately when no provider is mounted, rather than silently defaulting. -/
def useRequiredContext (ctx : Option α) : Except ConfigError α :=
  match ctx with
  | some v => Except.ok v
  | none => Except.error ConfigError.missingContext

/-- Props of `Toolbar` (`ToolbarProps` in the source); all are optional. -/
structure ToolbarProps (κ : Type) where
  onExpand : Option κ := none
  onCollapse : Option κ := none
  isFullScreen : Option Bool := none
  locked : Option Bool := none
  target : Option StyledComponentRef := none
  disableFullscreenMode : Option Bool := none
  deriving DecidableEq, Repr

/-- JavaScript `a || b` on optional callbacks: a function value is always
truthy, `undefined` is falsy. -/
def jsOr (a b : Option κ) : Option κ :=
  match a with
  | some f => some f
  | none => b

/-- JavaScript truthiness of an optional boolean (`undefined` is falsy). -/
def truthy (b : Option Bool) : Bool := b.getD false

/-- `finalOnExpand = onExpand || expand` (source line 118). -/
def finalOnExpand (props : ToolbarProps κ) (c : FullscreenContextValue κ) : Option κ :=
  jsOr props.onExpand (some c.expand)

/-- `finalOnCollapse = onCollapse || collapse` (source line 119). -/
def finalOnCollapse (props : ToolbarProps κ) (c : FullscreenContextValue κ) : Option κ :=
  jsOr props.onCollapse (some c.collapse)

/-- `finalIsFullScreen = isFullScreen ?? isFullScreenDefault` (source line
120): nullish coalescing, so an explicit `false` wins over the context. -/
def finalIsFullScreen (props : ToolbarProps κ) (c : FullscreenContextValue κ) : Bool :=
  props.isFullScreen.getD c.expanded

/-- The element tree returned by `Toolbar`: the wrapper attributes, the
caller-supplied children, and the built-in fullscreen actions rendered after
them (in source order: the enter action, then the exit action). -/
structure ToolbarRender (κ χ : Type) where
  className : String
  testid : String
  lockedStyle : Bool
  target : Option StyledComponentRef
  children : List χ
  builtinActions : List (ActionRender κ)
  deriving DecidableEq, Repr

/-- Shallow embedding of the `Toolbar` component (source lines 105-148).  It
first reads the required fullscreen context (raising when absent), resolves
the callbacks and the fullscreen flag with prop precedence, and renders the
two conditional built-in actions:
`{finalOnExpand && !disableFullscreenMode && !finalIsFullScreen && <ToolbarAction label="Fullscreen" .../>}` and
`{finalOnCollapse && !disableFullscreenMode && finalIsFullScreen && <ToolbarAction label="Close fullscreen" .../>}`. -/
def Toolbar (props : ToolbarProps κ) (children : List χ)
    (ctx : Option (FullscreenContextValue κ)) : Except ConfigError (ToolbarRender κ χ) := do
  let c ← useRequiredContext ctx
  let fe := finalOnExpand props c
  let fc := finalOnCollapse props c
  let fs := finalIsFullScreen props c
  let disabled := truthy props.disableFullscreenMode
  let enterAction : List (ActionRender κ) :=
    if fe.isSome && !disabled && !fs then
      [ToolbarAction { label := "Fullscreen", icon := some EmotionIcon.Fullscreen,
                       show_label := none, onClick := fe }]
    else []
  let exitAction : List (ActionRender κ) :=
    if fc.isSome && !disabled && fs then
      [ToolbarAction { label := "Close fullscreen", icon := some EmotionIcon.FullscreenExit,
                       show_label := none, onClick := fc }]
    else []
  return {
      className := "stElementToolbar"
      testid := "stElementToolbar"
      lockedStyle := truthy props.locked || fs
      target := props.target
      children := children
      builtinActions := enterAction ++ exitAction }

/-- Which built-in action the spec's rule selects. -/
inductive BuiltinAction where
  | enterFullscreen
  | exitFullscreen
  deriving DecidableEq, Repr

/-- The label of a built-in action. -/
def builtinLabel : BuiltinAction → String
  | BuiltinAction.enterFullscreen => "Fullscreen"
  | BuiltinAction.exitFullscreen => "Close fullscreen"

/-- The three-branch rendering rule exactly as the spec states it (an else-if
chain over the resolved values), written from the spec's words to be compared
against the component's actual render. -/
def specThreeBranchRule (fe fc : Option κ) (disabled fs : Bool) : List BuiltinAction :=
  if fe.isSome = true ∧ disabled = false ∧ fs = false then [BuiltinAction.enterFullscreen]
  else if fc.isSome = true ∧ disabled = false ∧ fs = true then [BuiltinAction.exitFullscreen]
  else []

/- Concrete fixtures used to instantiate the theorems below on executable
inputs (callbacks are numbered, children are `Unit`). -/

/-- Fixture: explicit props for the enter-fullscreen configuration. -/
def propsC1 : ToolbarProps Nat :=
  { onExpand := some 7, onCollapse := some 8, isFullScreen := some false }

/-- Fixture: a context value whose flags differ from the explicit props. -/
def ctxC1 : FullscreenContextValue Nat := { expanded := true, expand := 1, collapse := 2 }

/-- Fixture: the render `Toolbar propsC1 [] (some ctxC1)` produces. -/
def renderC1 : ToolbarRender Nat Unit :=
  { className := "stElementToolbar"
    testid := "stElementToolbar"
    lockedStyle := false
    target := none
    children := []
    builtinActions := [ToolbarAction
      { label := "Fullscreen", icon := some EmotionIcon.Fullscreen,
        show_label := none, onClick := some 7 }] }

/-- Fixture: props with every field absent. -/
def propsC2 : ToolbarProps Nat := {}

/-- Fixture: a context for the fallback scenario. -/
def ctxC2 : FullscreenContextValue Nat := { expanded := false, expand := 1, collapse := 2 }

/-- Fixture: the render `Toolbar propsC2 [] (some ctxC2)` produces — the enter
action is rendered with the context callback although `onExpand` is absent. -/
def renderC2 : ToolbarRender Nat Unit :=
  { className := "stElementToolbar"
    testid := "stElementToolbar"
    lockedStyle := false
    target := none
    children := []
    builtinActions := [ToolbarAction
      { label := "Fullscreen", icon := some EmotionIcon.Fullscreen,
        show_label := none, onClick := some 1 }] }

/-- Fixture: an action without an icon. -/
def actC2 : ToolbarActionProps Nat :=
  { label := "x", icon := none, show_label := some true, onClick := some 3 }

/-- Fixture: props carrying an explicit `isFullScreen := false` and an explicit
expand callback, to exercise precedence over a context that says expanded. -/
def propsC4 : ToolbarProps Nat := { onExpand := some 5, isFullScreen := some false }

/-- Fixture: a context claiming to be expanded. -/
def ctxC4 : FullscreenContextValue Nat := { expanded := true, expand := 1, collapse := 2 }

/-- Fixture: props for the enter branch of the label claim. -/
def propsC5a : ToolbarProps Nat := { onExpand := some 5, isFullScreen := some false }

/-- Fixture: props for the exit branch of the label claim. -/
def propsC5b : ToolbarProps Nat := { onCollapse := some 6, isFullScreen := some true }

/-- Fixture: a context for the label claim. -/
def ctxC5 : FullscreenContextValue Nat := { expanded := false, expand := 1, collapse := 2 }

/-- Fixture: the render for the enter branch of the label claim. -/
def renderC5a : ToolbarRender Nat Unit :=
  { className := "stElementToolbar"
    testid := "stElementToolbar"
    lockedStyle := false
    target := none
    children := []
    builtinActions := [ToolbarAction
      { label := "Fullscreen", icon := some EmotionIcon.Fullscreen,
        show_label := none, onClick := some 5 }] }

/-- Fixture: the render for the exit branch of the label claim. -/
def renderC5b : ToolbarRender Nat Unit :=
  { className := "stElementToolbar"
    testid := "stElementToolbar"
    lockedStyle := true
    target := none
    children := []
    builtinActions := [ToolbarAction
      { label := "Close fullscreen", icon := some EmotionIcon.FullscreenExit,
        show_label := none, onClick := some 6 }] }

/-- Fixture: an action with a concrete click callback. -/
def actC6 : ToolbarActionProps Nat := { label := "Download", onClick := some 9 }

/-- Fixture: an action whose label is empty while `show_label` is true. -/
def actC7 : ToolbarActionProps Nat :=
  { label := "", icon := none, show_label := some true, onClick := some 0 }

/-- Fixture: props supplying every value the context could provide. -/
def propsC9 : ToolbarProps Nat :=
  { onExpand := some 1, onCollapse := some 2, isFullScreen := some true }

/-- Fixture: an icon-bearing action with an empty label and `show_label` true. -/
def actC10 : ToolbarActionProps Nat :=
  { label := "", icon := some (EmotionIcon.other 0), show_label := some true, onClick := some 4 }

/- Helper lemmas shared by the claim theorems. -/

/-- Unfolding of `Toolbar` under a present context: the render it returns,
with the resolved values left symbolic. -/
theorem Toolbar_some (props : ToolbarProps κ) (children : List χ)
    (c : FullscreenContextValue κ) :
    Toolbar props children (some c) = Except.ok
      { className := "stElementToolbar"
        testid := "stElementToolbar"
        lockedStyle := truthy props.locked || finalIsFullScreen props c
        target := props.target
        children := children
        builtinActions :=
          (if (finalOnExpand props c).isSome && !truthy props.disableFullscreenMode
              && !finalIsFullScreen props c then
            [ToolbarAction { label := "Fullscreen", icon := some EmotionIcon.Fullscreen,
                             show_label := none, onClick := finalOnExpand props c }]
          else []) ++
          (if (finalOnCollapse props c).isSome && !truthy props.disableFullscreenMode
              && finalIsFullScreen props c then
            [ToolbarAction { label := "Close fullscreen", icon := some EmotionIcon.FullscreenExit,
                             show_label := none, onClick := finalOnCollapse props c }]
          else []) } := rfl

/-- The resolved expand callback always exists: the context supplies one. -/
theorem finalOnExpand_isSome (props : ToolbarProps κ) (c : FullscreenContextValue κ) :
    (finalOnExpand props c).isSome = true := by
  cases h : props.onExpand <;> simp [finalOnExpand, jsOr, h]

/-- The resolved collapse callback always exists: the context supplies one. -/
theorem finalOnCollapse_isSome (props : ToolbarProps κ) (c : FullscreenContextValue κ) :
    (finalOnCollapse props c).isSome = true := by
  cases h : props.onCollapse <;> simp [finalOnCollapse, jsOr, h]

/-- Characterisation of the visible text child: rendered exactly when the
label is shown and nonempty. -/
theorem ToolbarAction_visibleText (p : ToolbarActionProps κ) :
    (ToolbarAction p).button.visibleText =
      (if p.show_label = some true ∧ p.label ≠ "" then some p.label else none) := by
  by_cases hs : p.show_label = some true <;> by_cases hl : p.label = "" <;>
    simp [ToolbarAction, hs, hl]

/-- C1: for every combination of the inputs, the built-in actions `Toolbar`
renders match the spec's three-branch else-if rule over the resolved values;
in particular at most one built-in action is rendered, and none when
`disableFullscreenMode` is truthy. -/
theorem toolbar_matches_three_branch_rule (props : ToolbarProps κ) (children : List χ)
    (c : FullscreenContextValue κ) (r : ToolbarRender κ χ)
    (h : Toolbar props children (some c) = Except.ok r) :
    r.builtinActions.map (fun a => a.button.ariaLabel) =
      (specThreeBranchRule (finalOnExpand props c) (finalOnCollapse props c)
        (truthy props.disableFullscreenMode) (finalIsFullScreen props c)).map builtinLabel ∧
    r.builtinActions.length ≤ 1 ∧
    (truthy props.disableFullscreenMode = true → r.builtinActions = []) := by
  rw [Toolbar_some] at h
  injection h with h
  subst h
  cases hd : truthy props.disableFullscreenMode <;>
    cases hf : finalIsFullScreen props c <;>
      simp [specThreeBranchRule, builtinLabel, ToolbarAction, hd, hf,
        finalOnExpand_isSome, finalOnCollapse_isSome]

/-- C1 witness: the theorem instantiated on the enter-fullscreen fixture. -/
theorem toolbar_matches_three_branch_rule_witness :
    renderC1.builtinActions.map (fun a => a.button.ariaLabel) =
      (specThreeBranchRule (finalOnExpand propsC1 ctxC1) (finalOnCollapse propsC1 ctxC1)
        (truthy propsC1.disableFullscreenMode) (finalIsFullScreen propsC1 ctxC1)).map builtinLabel ∧
    renderC1.builtinActions.length ≤ 1 ∧
    (truthy propsC1.disableFullscreenMode = true → renderC1.builtinActions = []) :=
  toolbar_matches_three_branch_rule propsC1 ([] : List Unit) ctxC1 renderC1 rfl

/-- C3: rendering `Toolbar` without the ambient fullscreen context is a fatal
configuration error, and with a mounted provider the render always succeeds —
no other error is generated. -/
theorem toolbar_missing_context_fatal (props : ToolbarProps κ) (children : List χ) :
    Toolbar props children (none : Option (FullscreenContextValue κ)) =
      Except.error ConfigError.missingContext ∧
    ∀ c : FullscreenContextValue κ, ∃ r, Toolbar props children (some c) = Except.ok r := by
  refine ⟨rfl, fun c => ⟨_, Toolbar_some props children c⟩⟩

/-- C9: the context is read unconditionally; even when explicit `isFullScreen`,
`onExpand` and `onCollapse` props are all supplied, rendering without a
provider still raises the fatal configuration error. -/
theorem toolbar_reads_context_unconditionally (props : ToolbarProps κ) (children : List χ)
    (h1 : props.onExpand.isSome = true) (h2 : props.onCollapse.isSome = true)
    (h3 : props.isFullScreen.isSome = true) :
    Toolbar props children (none : Option (FullscreenContextValue κ)) =
      Except.error ConfigError.missingContext := rfl

/-- C9 witness: the theorem instantiated on props supplying all three values. -/
theorem toolbar_reads_context_unconditionally_witness :
    Toolbar propsC9 ([] : List Unit) (none : Option (FullscreenContextValue Nat)) =
      Except.error ConfigError.missingContext :=
  toolbar_reads_context_unconditionally propsC9 ([] : List Unit) rfl rfl rfl

/-- C8: the tooltip of every action renders the label through the markdown
renderer with HTML disabled, and its trigger delay is the constant 1000ms,
strictly greater than the 200ms platform default. -/
theorem toolbarAction_tooltip_contract (p : ToolbarActionProps κ) :
    (ToolbarAction p).tooltip.onMouseEnterDelay = 1000 ∧
    (ToolbarAction p).tooltip.content = { source := p.label, allowHTML := false } ∧
    defaultTooltipDelay = 200 ∧
    defaultTooltipDelay < (ToolbarAction p).tooltip.onMouseEnterDelay := by
  refine ⟨rfl, rfl, rfl, ?_⟩
  show (200 : Nat) < 1000
  norm_num

/-- C2 counterexample: with the `onExpand` prop absent (and not disabled, not
fullscreen), the built-in enter action IS rendered — it falls back to the
context's expand callback instead of being dropped. -/
theorem toolbar_absent_onExpand_still_renders :
    propsC2.onExpand = none ∧
    (Toolbar propsC2 ([] : List Unit) (some ctxC2)).map
      (fun r => r.builtinActions.map fun a => a.button.ariaLabel) = Except.ok ["Fullscreen"] :=
  ⟨rfl, rfl⟩

/-- C2 amended: when the `onExpand` and `onCollapse` props are absent, the
built-in actions fall back to the ambient context's `expand` and `collapse`
callbacks, so the action of the active branch is still rendered (invoking the
context callback) and only the disable flag or the fullscreen state suppresses
it; a missing icon degrades to a text-only button when a nonempty label is
shown, otherwise an empty visual button. -/
theorem toolbar_absent_callbacks_fall_back (props : ToolbarProps κ) (children : List χ)
    (c : FullscreenContextValue κ) (r : ToolbarRender κ χ) (p : ToolbarActionProps κ)
    (h : Toolbar props children (some c) = Except.ok r)
    (he : props.onExpand = none) (hc : props.onCollapse = none) (hi : p.icon = none) :
    (r.builtinActions.map fun a => a.button.onClick) =
      (if truthy props.disableFullscreenMode then []
       else if finalIsFullScreen props c then [some c.collapse] else [some c.expand]) ∧
    (ToolbarAction p).button.iconContent = none ∧
    (ToolbarAction p).button.visibleText =
      (if p.show_label = some true ∧ p.label ≠ "" then some p.label else none) := by
  rw [Toolbar_some] at h
  injection h with h
  subst h
  refine ⟨?_, by simp [ToolbarAction, hi], ToolbarAction_visibleText p⟩
  cases hd : truthy props.disableFullscreenMode <;>
    cases hf : finalIsFullScreen props c <;>
      simp [ToolbarAction, hd, hf, finalOnExpand, finalOnCollapse, jsOr, he, hc]

/-- C2 witness: the amended theorem instantiated on the fallback fixture. -/
theorem toolbar_absent_callbacks_fall_back_witness :
    (renderC2.builtinActions.map fun a => a.button.onClick) =
      (if truthy propsC2.disableFullscreenMode then []
       else if finalIsFullScreen propsC2 ctxC2 then [some ctxC2.collapse]
       else [some ctxC2.expand]) ∧
    (ToolbarAction actC2).button.iconContent = none ∧
    (ToolbarAction actC2).button.visibleText =
      (if actC2.show_label = some true ∧ actC2.label ≠ "" then some actC2.label else none) :=
  toolbar_absent_callbacks_fall_back propsC2 ([] : List Unit) ctxC2 renderC2 actC2 rfl rfl rfl rfl

/-- C4: the resolution of the effective callbacks and fullscreen flag gives
explicit props precedence over the context, falling back to the context value
only when the prop is absent; an explicit `isFullScreen` (even `false`) wins
over the context's `expanded` flag. -/
theorem toolbar_prop_precedence (props : ToolbarProps κ) (c : FullscreenContextValue κ) :
    (∀ f, props.onExpand = some f → finalOnExpand props c = some f) ∧
    (props.onExpand = none → finalOnExpand props c = some c.expand) ∧
    (∀ g, props.onCollapse = some g → finalOnCollapse props c = some g) ∧
    (props.onCollapse = none → finalOnCollapse props c = some c.collapse) ∧
    (∀ b, props.isFullScreen = some b → finalIsFullScreen props c = b) ∧
    (props.isFullScreen = none → finalIsFullScreen props c = c.expanded) := by
  refine ⟨fun f hf => ?_, fun hf => ?_, fun g hg => ?_, fun hg => ?_,
    fun b hb => ?_, fun hb => ?_⟩
  · simp [finalOnExpand, jsOr, hf]
  · simp [finalOnExpand, jsOr, hf]
  · simp [finalOnCollapse, jsOr, hg]
  · simp [finalOnCollapse, jsOr, hg]
  · simp [finalIsFullScreen, hb]
  · simp [finalIsFullScreen, hb]

/-- C4 witness: with the context claiming `expanded := true`, an explicit
`isFullScreen := false` prop wins, and the explicit expand callback wins. -/
theorem toolbar_prop_precedence_witness :
    finalIsFullScreen propsC4 ctxC4 = false ∧ finalOnExpand propsC4 ctxC4 = some 5 :=
  ⟨(toolbar_prop_precedence propsC4 ctxC4).2.2.2.2.1 false rfl,
   (toolbar_prop_precedence propsC4 ctxC4).1 5 rfl⟩

/-- C5: when fullscreen mode is not disabled, if the resolved fullscreen flag
is false and an expand callback resolves, exactly one built-in action is
rendered, labeled "Fullscreen"; symmetrically with the flag true and a
collapse callback, exactly one, labeled "Close fullscreen". -/
theorem toolbar_single_action_labels (props : ToolbarProps κ) (children : List χ)
    (c : FullscreenContextValue κ) (r : ToolbarRender κ χ)
    (h : Toolbar props children (some c) = Except.ok r)
    (hd : truthy props.disableFullscreenMode = false) :
    (finalIsFullScreen props c = false → (finalOnExpand props c).isSome = true →
      r.builtinActions.map (fun a => a.button.ariaLabel) = ["Fullscreen"]) ∧
    (finalIsFullScreen props c = true → (finalOnCollapse props c).isSome = true →
      r.builtinActions.map (fun a => a.button.ariaLabel) = ["Close fullscreen"]) := by
  rw [Toolbar_some] at h
  injection h with h
  subst h
  constructor <;> intro hf hs <;>
    simp [ToolbarAction, hd, hf, finalOnExpand_isSome, finalOnCollapse_isSome]

/-- C5 witness: both branches of the theorem instantiated on concrete props,
one not-fullscreen with an expand callback, one fullscreen with a collapse
callback. -/
theorem toolbar_single_action_labels_witness :
    renderC5a.builtinActions.map (fun a => a.button.ariaLabel) = ["Fullscreen"] ∧
    renderC5b.builtinActions.map (fun a => a.button.ariaLabel) = ["Close fullscreen"] :=
  ⟨(toolbar_single_action_labels propsC5a ([] : List Unit) ctxC5 renderC5a rfl rfl).1 rfl rfl,
   (toolbar_single_action_labels propsC5b ([] : List Unit) ctxC5 renderC5b rfl rfl).2 rfl rfl⟩

/-- C6: activating a `ToolbarAction` with a supplied callback produces exactly
the trace invoke-then-stopPropagation: the callback is invoked exactly once,
and propagation is stopped after the invocation, so the event does not bubble
past the action's container. -/
theorem toolbarAction_click_invokes_once_then_stops [DecidableEq κ]
    (p : ToolbarActionProps κ) (f : κ) (h : p.onClick = some f) :
    handleButtonClick (ToolbarAction p).button.onClick =
      [Effect.invoke f, Effect.stopPropagation] ∧
    (handleButtonClick (ToolbarAction p).button.onClick).count (Effect.invoke f) = 1 ∧
    Effect.stopPropagation ∈ handleButtonClick (ToolbarAction p).button.onClick := by
  have hb : (ToolbarAction p).button.onClick = some f := h
  rw [hb]
  refine ⟨rfl, ?_, by simp [handleButtonClick]⟩
  simp [handleButtonClick, List.count_cons]

/-- C6 witness: the theorem instantiated on a concrete action. -/
theorem toolbarAction_click_invokes_once_then_stops_witness :
    handleButtonClick (ToolbarAction actC6).button.onClick =
      [Effect.invoke 9, Effect.stopPropagation] ∧
    (handleButtonClick (ToolbarAction actC6).button.onClick).count (Effect.invoke 9) = 1 ∧
    Effect.stopPropagation ∈ handleButtonClick (ToolbarAction actC6).button.onClick :=
  toolbarAction_click_invokes_once_then_stops actC6 9 rfl

/-- C7 counterexample: with `show_label = some true` but an empty label, no
visible text node is rendered — the claimed "if and only if show_label is
true" fails at the empty label. -/
theorem toolbarAction_visible_text_iff_cex :
    actC7.show_label = some true ∧ (ToolbarAction actC7).button.visibleText = none :=
  ⟨rfl, rfl⟩

/-- C7 amended: the button's accessible name is always the label, and a
visible text node containing the label is rendered if and only if
`show_label` is true AND the label is nonempty; otherwise only the icon is
shown. -/
theorem toolbarAction_label_accessibility (p : ToolbarActionProps κ) :
    (ToolbarAction p).button.ariaLabel = p.label ∧
    (ToolbarAction p).button.visibleText =
      (if p.show_label = some true ∧ p.label ≠ "" then some p.label else none) :=
  ⟨rfl, ToolbarAction_visibleText p⟩

/-- C10: an empty label with `show_label = true` renders no visible text node,
behaves identically to `show_label = false`, and the accessible name is the
empty string. -/
theorem toolbarAction_empty_label (p : ToolbarActionProps κ)
    (h1 : p.label = "") (h2 : p.show_label = some true) :
    (ToolbarAction p).button.visibleText = none ∧
    (ToolbarAction p).button.ariaLabel = "" ∧
    ToolbarAction p = ToolbarAction { p with show_label := some false } := by
  refine ⟨?_, ?_, ?_⟩ <;> simp [ToolbarAction, h1, h2]

/-- C10 witness: the theorem instantiated on a concrete icon-bearing action
with an empty label. -/
theorem toolbarAction_empty_label_witness :
    (ToolbarAction actC10).button.visibleText = none ∧
    (ToolbarAction actC10).button.ariaLabel = "" ∧
    ToolbarAction actC10 = ToolbarAction { actC10 with show_label := some false } :=
  toolbarAction_empty_label actC10 rfl rfl

end ToolbarSpec
